import Mathlib

/-!
Shallow embedding, in Lean 4, of the parts of the WebAI-to-API relay
service that its specification makes claims about: the API-key gate
(`src/app/security.py`), the Chrome cookie-value decryption routine and the
browser cookie lookup (`src/app/utils/browser.py`), the chat-completion
endpoint with its retry loop, prompt flattening and SSE stream generator
(`src/app/endpoints/chat.py`), the configuration loader
(`src/app/config.py`), the model-discovery cache
(`src/app/endpoints/models.py`), and the error boundaries of the route
handlers (`src/app/endpoints/*.py`).

Python strings are modelled as Lean `String` (sequences of Unicode scalar
values); Python byte strings as `List Nat` (each entry < 256).  Python
functions that may raise are modelled with `Option`/`Except`.  ASCII-only
approximations of `str.lower`, `str.strip` and `str.capitalize` are used;
all strings the claims quantify over are handled exactly on the ASCII
whitespace set that Python shares with the model.
-/

namespace WebAItoAPI

/-- The characters stripped by Python `str.strip()` with no argument
(ASCII whitespace subset: space, tab, newline, carriage return, vertical
tab, form feed). -/
def pyIsSpace (c : Char) : Bool :=
  c = ' ' || c = '\t' || c = '\n' || c = '\x0d' || c = '\x0b' || c = '\x0c'

/-- Python `str.strip()` on the ASCII whitespace set: drop leading and
trailing whitespace characters. -/
def pyStrip (s : String) : String :=
  ((s.toList.dropWhile pyIsSpace).reverse.dropWhile pyIsSpace).reverse.asString

/-- Python `str.lower()` restricted to ASCII case mapping. -/
def pyLower (s : String) : String :=
  (s.toList.map Char.toLower).asString

/-- Python `str.capitalize()` restricted to ASCII case mapping: first
character uppercased, all remaining characters lowercased. -/
def pyCapitalize (s : String) : String :=
  match s.toList with
  | [] => ""
  | c :: cs => (c.toUpper :: cs.map Char.toLower).asString

/-- Concatenation of a list of strings (Python `"".join` / repeated
`+=`). -/
def strConcat : List String → String
  | [] => ""
  | s :: ss => s ++ strConcat ss

/-- An HTTP error as raised through FastAPI `HTTPException`: a status code
and a free-text detail. -/
structure HttpError where
  status : Nat
  detail : String
deriving Repr, DecidableEq

/-! ## API-key gate (`src/app/security.py`, `verify_api_key`)

`verify_api_key` reads `CONFIG.get("Auth", "api_key", fallback="")`,
strips it, and when the stripped value is non-empty demands a bearer token
equal to the stripped value; a missing or mismatched token raises an
HTTP 401.  The configured value is modelled as `Option String` (`none` =
the key is absent from the config file) and the bearer credentials as
`Option String` (`none` = no `Authorization` header). -/

/-- Embedding of `verify_api_key`. -/
def verify_api_key (config_api_key : Option String)
    (credentials : Option String) : Except HttpError Bool :=
  let expected_api_key := pyStrip (config_api_key.getD "")
  if expected_api_key = "" then
    .ok true
  else
    match credentials with
    | none => .error ⟨401, "Missing authentication credentials"⟩
    | some c =>
        if c ≠ expected_api_key then
          .error ⟨401, "Invalid API Key"⟩
        else
          .ok true

/-! ## Chrome cookie-value decryption
(`src/app/utils/browser.py`,
`CrossPlatformCookieExtractor._decrypt_chrome_cookie_value`)

Byte strings are `List Nat`.  The external cryptographic primitives
(`win32crypt.CryptUnprotectData`, `AES.new(..., MODE_GCM)` with
`decrypt_and_verify`, and `bytes.decode("utf-8")`) are passed in as a
record of operations; a failing operation returns `none` (the Python call
raises, and every call site catches the exception).  The Local State file
is modelled after its use: `none` when the file does not exist, otherwise
a record holding the base64-decoded `os_crypt.encrypted_key` bytes
(`none` when the JSON has no such entry). -/

/-- External cryptographic operations used by the decrypt routine.
`aesGcmSeal` is AES-GCM encryption (producing ciphertext and 16-byte tag);
it is not called by the code but lets the roundtrip claim state that a
value was produced with the known key. -/
structure CryptoOps where
  dpapiUnprotect : List Nat → Option (List Nat)
  aesGcmSeal : List Nat → List Nat → List Nat → List Nat × List Nat
  aesGcmOpen : List Nat → List Nat → List Nat → List Nat → Option (List Nat)
  utf8Decode : List Nat → Option String

/-- The `Local State` JSON file, reduced to the only field the routine
reads: the base64-decoded `os_crypt.encrypted_key`. -/
structure LocalState where
  encrypted_key : Option (List Nat)

/-- The legacy whole-value unwrap: `win32crypt.CryptUnprotectData` on the
entire encrypted value followed by UTF-8 decoding; any failure is caught
by the surrounding handler and yields `none`. -/
def dpapi_whole_value (ops : CryptoOps) (encrypted_value : List Nat) :
    Option String :=
  match ops.dpapiUnprotect encrypted_value with
  | none => none
  | some decrypted =>
      match ops.utf8Decode decrypted with
      | none => none
      | some result => some result

/-- Embedding of `_decrypt_chrome_cookie_value`.  Mirrors the source:
guard on Windows/crypto availability, read the Local State key and unwrap
it with DPAPI (first 5 bytes, the `DPAPI` tag, removed), reject values
shorter than 31 bytes, switch on the 3-byte version prefix (`v1`/`v2` =
AES-GCM scheme, anything else = legacy DPAPI whole-value), split the
modern format as nonce `[3:15]`, ciphertext `[15:-16]`, tag `[-16:]`, and
fall back to the legacy unwrap when AES-GCM verification or UTF-8
decoding fails (`UnicodeDecodeError` is a `ValueError`, so it is caught
by the same `except ValueError` clause as a tag-verification failure). -/
def decrypt_chrome_cookie_value (ops : CryptoOps)
    (is_windows has_crypto : Bool) (local_state : Option LocalState)
    (encrypted_value : List Nat) : Option String :=
  if !(is_windows && has_crypto) then none
  else
    match local_state with
    | none => none
    | some st =>
      match st.encrypted_key with
      | none => none
      | some encrypted_key =>
        match ops.dpapiUnprotect (encrypted_key.drop 5) with
        | none => none
        | some key =>
          if encrypted_value.length < 31 then none
          else
            let version := encrypted_value.take 3
            if !([118, 49].isPrefixOf version
                  || [118, 50].isPrefixOf version) then
              dpapi_whole_value ops encrypted_value
            else
              let nonce := (encrypted_value.drop 3).take 12
              let ciphertext :=
                (encrypted_value.drop 15).take (encrypted_value.length - 31)
              let tag := encrypted_value.drop (encrypted_value.length - 16)
              match ops.aesGcmOpen key nonce ciphertext tag with
              | some decrypted =>
                  match ops.utf8Decode decrypted with
                  | some result => some result
                  | none => dpapi_whole_value ops encrypted_value
              | none => dpapi_whole_value ops encrypted_value

/-- A toy instantiation of the cryptographic operations, used to witness
the decryption theorems on concrete inputs: sealing adds one to every
byte and attaches a tag of sixteen zero bytes; opening checks the tag and
subtracts one; DPAPI is the identity except on the marker `[9, 9]`; UTF-8
decoding accepts ASCII byte lists. -/
def toyCrypto : CryptoOps where
  dpapiUnprotect := fun bs => if bs = [9, 9] then none else some bs
  aesGcmSeal := fun _key _nonce pt =>
    (pt.map (· + 1), List.replicate 16 0)
  aesGcmOpen := fun _key _nonce ct tag =>
    if tag = List.replicate 16 0 then some (ct.map (· - 1)) else none
  utf8Decode := fun bs =>
    if bs.all (· < 128) then some (bs.map Char.ofNat).asString else none

/-- C1: for every encrypted cookie value whose 3-byte version prefix is
`v1`/`v2` and whose length is at least 31 bytes (the value decomposes as
prefix ++ 12-byte nonce ++ ciphertext ++ 16-byte tag), the decrypt
routine splits it exactly that way, decrypts with AES-GCM under the key
recovered from the OS key store, and returns the original plaintext when
ciphertext and tag were produced by sealing that plaintext with the known
key and nonce. -/
theorem decrypt_chrome_cookie_value_aes_roundtrip
    (ops : CryptoOps) (st : LocalState) (ek key : List Nat)
    (ver nonce ct tag pt : List Nat) (s : String)
    (hek : st.encrypted_key = some ek)
    (hkey : ops.dpapiUnprotect (ek.drop 5) = some key)
    (hver : ver.length = 3)
    (hv12 : [118, 49].isPrefixOf ver = true ∨ [118, 50].isPrefixOf ver = true)
    (hn : nonce.length = 12) (ht : tag.length = 16)
    (hseal : ops.aesGcmSeal key nonce pt = (ct, tag))
    (hroundtrip : ops.aesGcmOpen key nonce (ops.aesGcmSeal key nonce pt).1
        (ops.aesGcmSeal key nonce pt).2 = some pt)
    (hdec : ops.utf8Decode pt = some s) :
    decrypt_chrome_cookie_value ops true true (some st)
      (ver ++ nonce ++ ct ++ tag) = some s := by
  have hopen : ops.aesGcmOpen key nonce ct tag = some pt := by
    rw [hseal] at hroundtrip; exact hroundtrip
  have hlen : (ver ++ nonce ++ ct ++ tag).length = ct.length + 31 := by
    simp [hver, hn, ht]; omega
  have hnotlt : ¬ (ver ++ nonce ++ ct ++ tag).length < 31 := by
    rw [hlen]; omega
  have hassoc : ver ++ nonce ++ ct ++ tag = ver ++ (nonce ++ (ct ++ tag)) := by
    simp [List.append_assoc]
  have htake3 : (ver ++ nonce ++ ct ++ tag).take 3 = ver := by
    rw [hassoc]; exact List.take_left' hver
  have hdrop3 : (ver ++ nonce ++ ct ++ tag).drop 3 = nonce ++ (ct ++ tag) := by
    rw [hassoc]; exact List.drop_left' hver
  have htake12 : (nonce ++ (ct ++ tag)).take 12 = nonce := List.take_left' hn
  have hdrop15 : (ver ++ nonce ++ ct ++ tag).drop 15 = ct ++ tag := by
    rw [show ver ++ nonce ++ ct ++ tag = (ver ++ nonce) ++ (ct ++ tag) by
      simp [List.append_assoc]]
    exact List.drop_left' (by simp [hver, hn])
  have hctlen : (ver ++ nonce ++ ct ++ tag).length - 31 = ct.length := by
    rw [hlen]; omega
  have htakect : (ct ++ tag).take ct.length = ct := List.take_left _ _
  have hdroptag : (ver ++ nonce ++ ct ++ tag).drop
      ((ver ++ nonce ++ ct ++ tag).length - 16) = tag := by
    have h16 : (ver ++ nonce ++ ct ++ tag).length - 16
        = (ver ++ nonce ++ ct).length := by simp [hver, hn, ht]; omega
    rw [h16]
    exact List.drop_left' rfl
  have hpre : ([118, 49].isPrefixOf ((ver ++ nonce ++ ct ++ tag).take 3)
      || [118, 50].isPrefixOf ((ver ++ nonce ++ ct ++ tag).take 3)) = true := by
    rw [htake3]; rcases hv12 with h | h <;> simp [h]
  simp only [decrypt_chrome_cookie_value, hek, hkey, Bool.and_self,
    Bool.not_true, Bool.false_eq_true, if_false, hnotlt, hpre,
    Bool.not_true, hdrop3, htake12, hdrop15, hctlen, htakect, hdroptag,
    hopen, hdec, ite_false]

/-- C1 witness: a concrete synthetic value decrypts to the sealed
plaintext under the toy cipher. -/
theorem decrypt_chrome_cookie_value_aes_roundtrip_witness :
    decrypt_chrome_cookie_value toyCrypto true true
      (some ⟨some [0, 0, 0, 0, 0, 7]⟩)
      ([118, 49, 0] ++ List.replicate 12 0 ++ [105, 106]
        ++ List.replicate 16 0) = some "hi" :=
  decrypt_chrome_cookie_value_aes_roundtrip toyCrypto
    ⟨some [0, 0, 0, 0, 0, 7]⟩ [0, 0, 0, 0, 0, 7] [7] [118, 49, 0]
    (List.replicate 12 0) [105, 106] (List.replicate 16 0) [104, 105] "hi"
    rfl (by decide) (by decide) (by decide) (by decide) (by decide)
    (by decide) (by decide) (by decide)

/-- C2: on a well-formed modern-scheme value, when AES-GCM verification
fails (e.g. a tampered tag), the routine falls back to the legacy DPAPI
whole-value unwrap rather than raising; and when that also fails, it
returns `none` rather than propagating an exception. -/
theorem decrypt_chrome_cookie_value_fallback
    (ops : CryptoOps) (st : LocalState) (ek key : List Nat)
    (ver nonce ct tag : List Nat)
    (hek : st.encrypted_key = some ek)
    (hkey : ops.dpapiUnprotect (ek.drop 5) = some key)
    (hver : ver.length = 3)
    (hv12 : [118, 49].isPrefixOf ver = true ∨ [118, 50].isPrefixOf ver = true)
    (hn : nonce.length = 12) (ht : tag.length = 16)
    (hfail : ops.aesGcmOpen key nonce ct tag = none) :
    decrypt_chrome_cookie_value ops true true (some st)
        (ver ++ nonce ++ ct ++ tag)
      = dpapi_whole_value ops (ver ++ nonce ++ ct ++ tag) ∧
    (dpapi_whole_value ops (ver ++ nonce ++ ct ++ tag) = none →
      decrypt_chrome_cookie_value ops true true (some st)
        (ver ++ nonce ++ ct ++ tag) = none) := by
  have hlen : (ver ++ nonce ++ ct ++ tag).length = ct.length + 31 := by
    simp [hver, hn, ht]; omega
  have hnotlt : ¬ (ver ++ nonce ++ ct ++ tag).length < 31 := by
    rw [hlen]; omega
  have hassoc : ver ++ nonce ++ ct ++ tag = ver ++ (nonce ++ (ct ++ tag)) := by
    simp [List.append_assoc]
  have htake3 : (ver ++ nonce ++ ct ++ tag).take 3 = ver := by
    rw [hassoc]; exact List.take_left' hver
  have hdrop3 : (ver ++ nonce ++ ct ++ tag).drop 3 = nonce ++ (ct ++ tag) := by
    rw [hassoc]; exact List.drop_left' hver
  have htake12 : (nonce ++ (ct ++ tag)).take 12 = nonce := List.take_left' hn
  have hdrop15 : (ver ++ nonce ++ ct ++ tag).drop 15 = ct ++ tag := by
    rw [show ver ++ nonce ++ ct ++ tag = (ver ++ nonce) ++ (ct ++ tag) by
      simp [List.append_assoc]]
    exact List.drop_left' (by simp [hver, hn])
  have hctlen : (ver ++ nonce ++ ct ++ tag).length - 31 = ct.length := by
    rw [hlen]; omega
  have htakect : (ct ++ tag).take ct.length = ct := List.take_left _ _
  have hdroptag : (ver ++ nonce ++ ct ++ tag).drop
      ((ver ++ nonce ++ ct ++ tag).length - 16) = tag := by
    have h16 : (ver ++ nonce ++ ct ++ tag).length - 16
        = (ver ++ nonce ++ ct).length := by simp [hver, hn, ht]; omega
    rw [h16]
    exact List.drop_left' rfl
  have hpre : ([118, 49].isPrefixOf ((ver ++ nonce ++ ct ++ tag).take 3)
      || [118, 50].isPrefixOf ((ver ++ nonce ++ ct ++ tag).take 3)) = true := by
    rw [htake3]; rcases hv12 with h | h <;> simp [h]
  have hmain : decrypt_chrome_cookie_value ops true true (some st)
      (ver ++ nonce ++ ct ++ tag)
      = dpapi_whole_value ops (ver ++ nonce ++ ct ++ tag) := by
    simp only [decrypt_chrome_cookie_value, hek, hkey, Bool.and_self,
      Bool.not_true, Bool.false_eq_true, if_false, hnotlt, hpre,
      hdrop3, htake12, hdrop15, hctlen, htakect, hdroptag, hfail,
      ite_false]
  exact ⟨hmain, fun hnone => hmain.trans hnone⟩

/-- C2 witness: a concrete modern-scheme value with a tampered tag falls
through AES-GCM and the DPAPI fallback (its bytes are not valid ASCII for
the toy UTF-8 decoder) and the routine returns `none`. -/
theorem decrypt_chrome_cookie_value_fallback_witness :
    decrypt_chrome_cookie_value toyCrypto true true
      (some ⟨some [0, 0, 0, 0, 0, 7]⟩)
      ([118, 50, 0] ++ List.replicate 12 0 ++ [200]
        ++ List.replicate 16 1) = none :=
  (decrypt_chrome_cookie_value_fallback toyCrypto
    ⟨some [0, 0, 0, 0, 0, 7]⟩ [0, 0, 0, 0, 0, 7] [7] [118, 50, 0]
    (List.replicate 12 0) [200] (List.replicate 16 1)
    rfl (by decide) (by decide) (by decide) (by decide) (by decide)
    (by decide)).2 (by decide)

/-- C3 counterexample: the code compares the bearer token against the
*stripped* configured value, so a token equal to the configured value
exactly (here `"abc "`, with its trailing space) is rejected with 401,
contradicting the claim that an exact match of the configured value is
admitted. -/
theorem verify_api_key_exact_match_counterexample :
    verify_api_key (some "abc ") (some "abc ")
      = .error ⟨401, "Invalid API Key"⟩ := by rfl

/-- C3 (amended): with `expected` the whitespace-stripped configured
[Auth] api_key, an empty `expected` (key missing, empty, or all
whitespace) admits every request; a non-empty `expected` rejects a
missing bearer token and any token different from `expected` with 401,
and admits a token equal to `expected`. -/
theorem verify_api_key_spec (cfg : Option String) (cred : Option String) :
    (pyStrip (cfg.getD "") = "" → verify_api_key cfg cred = .ok true) ∧
    (pyStrip (cfg.getD "") ≠ "" →
      verify_api_key cfg none
          = .error ⟨401, "Missing authentication credentials"⟩ ∧
      (∀ c : String, c ≠ pyStrip (cfg.getD "") →
        verify_api_key cfg (some c) = .error ⟨401, "Invalid API Key"⟩) ∧
      verify_api_key cfg (some (pyStrip (cfg.getD ""))) = .ok true) := by
  constructor
  · intro h
    simp [verify_api_key, h]
  · intro h
    refine ⟨?_, fun c hc => ?_, ?_⟩
    · simp [verify_api_key, h]
    · simp [verify_api_key, h, hc]
    · simp [verify_api_key, h]

/-- C3 witness: the amended gate behaviour at concrete inputs — no
configured key admits, a configured key `"k"` rejects a missing token and
a wrong token and admits `"k"`. -/
theorem verify_api_key_spec_witness :
    verify_api_key none none = .ok true ∧
    verify_api_key (some "k") none
      = .error ⟨401, "Missing authentication credentials"⟩ ∧
    verify_api_key (some "k") (some "x")
      = .error ⟨401, "Invalid API Key"⟩ ∧
    verify_api_key (some "k") (some "k") = .ok true := by
  have h0 := (verify_api_key_spec none none).1 (by decide)
  have h := (verify_api_key_spec (some "k") (some "x")).2 (by decide)
  have hk : pyStrip ((some "k").getD "") = "k" := by decide
  refine ⟨h0, h.1, ?_, ?_⟩
  · exact h.2.1 "x" (by decide)
  · have := h.2.2
    rwa [hk] at this

/-! ## Non-streaming chat completion with one bounded retry
(`src/app/endpoints/chat.py`, `chat_completions`, lines 257–312)

The upstream call `gemini_client.generate_content` is modelled as a
function from the attempt index to an outcome: success (response text and
optional thoughts), an `httpx.RemoteProtocolError` (the only exception
the loop retries on), or any other exception.  `init_gemini_client` plus
the following `get_gemini_client` null check are summarised by
`reinit_ok`.  The embedding returns the HTTP-level outcome together with
the number of upstream calls performed. -/

/-- Outcome of one upstream `generate_content` call. -/
inductive UpstreamResult where
  | success (text : String) (thoughts : Option String)
  | transportError (msg : String)
  | otherError (msg : String)
deriving Repr, DecidableEq

/-- A Python exception escaping the retry loop: a transport error
(`httpx.RemoteProtocolError`) or any other exception, with its message. -/
inductive PyExc where
  | transport (msg : String)
  | other (msg : String)
deriving Repr, DecidableEq

/-- The detail string produced by the handler's `except Exception`
boundary for `/v1/chat/completions`. -/
def wrap500 (msg : String) : HttpError :=
  ⟨500, "Error processing chat completion: " ++ msg⟩

/-- The `for attempt in range(max_attempts)` loop of `chat_completions`:
break on success; on a transport error re-raise when this was the last
attempt or the client reinitialization failed, otherwise retry; any other
exception propagates.  Returns the loop outcome (`.error` = the raised
exception, `.ok` = the response) and the number of upstream calls made;
loop exhaustion without a response raises `RuntimeError` (dead code for
`max_attempts = 2`, kept for fidelity). -/
def chat_attempts (calls : Nat → UpstreamResult) (reinit_ok : Bool)
    (max_attempts : Nat) :
    (attempt remaining : Nat) → Except PyExc (String × Option String) × Nat
  | _, 0 => (.error (.other "Gemini client returned no response"), 0)
  | attempt, remaining + 1 =>
    match calls attempt with
    | .success t th => (.ok (t, th), 1)
    | .transportError m =>
        if attempt + 1 ≥ max_attempts then (.error (.transport m), 1)
        else if !reinit_ok then (.error (.transport m), 1)
        else
          let rec_result := chat_attempts calls reinit_ok max_attempts
            (attempt + 1) remaining
          (rec_result.1, rec_result.2 + 1)
    | .otherError m => (.error (.other m), 1)

/-- Embedding of the non-streaming path of `chat_completions`: the 503
guard for an uninitialized client, the 400 guard for empty messages, the
two-attempt loop with `max_attempts = 2`, the empty-response
`ValueError`, and the `except Exception` boundary turning any escaped
exception into an HTTP 500 carrying the exception's message. -/
def chat_completions_nonstream (client_init messages_nonempty : Bool)
    (calls : Nat → UpstreamResult) (reinit_ok : Bool) :
    Except HttpError (String × Option String) × Nat :=
  if !client_init then
    (.error ⟨503, "Gemini client is not initialized."⟩, 0)
  else if !messages_nonempty then
    (.error ⟨400, "No messages provided."⟩, 0)
  else
    match chat_attempts calls reinit_ok 2 0 2 with
    | (.ok (t, th), n) =>
        if t = "" then
          (.error (wrap500
            "Empty response from Gemini. Check server logs for parsing errors."), n)
        else (.ok (t, th), n)
    | (.error (.transport m), n) => (.error (wrap500 m), n)
    | (.error (.other m), n) => (.error (wrap500 m), n)

/-- C4: a transport error on the first upstream call triggers exactly one
retry, taken only when client reinitialization succeeds; the outcome then
follows the second call, a second transport error surfaces as an HTTP 500
carrying its message, a failed reinitialization surfaces the first
transport error as a 500 with no second call, and a non-transport error
never triggers a retry. -/
theorem chat_completions_retry_policy (calls : Nat → UpstreamResult)
    (reinit_ok : Bool) (m m' t : String) (th : Option String) :
    (calls 0 = .transportError m → reinit_ok = true →
      calls 1 = .success t th → t ≠ "" →
      chat_completions_nonstream true true calls reinit_ok
        = (.ok (t, th), 2)) ∧
    (calls 0 = .transportError m → reinit_ok = true →
      calls 1 = .transportError m' →
      chat_completions_nonstream true true calls reinit_ok
        = (.error (wrap500 m'), 2)) ∧
    (calls 0 = .transportError m → reinit_ok = false →
      chat_completions_nonstream true true calls reinit_ok
        = (.error (wrap500 m), 1)) ∧
    (calls 0 = .otherError m →
      chat_completions_nonstream true true calls reinit_ok
        = (.error (wrap500 m), 1)) ∧
    (calls 0 = .success t th → t ≠ "" →
      chat_completions_nonstream true true calls reinit_ok
        = (.ok (t, th), 1)) := by
  refine ⟨?_, ?_, ?_, ?_, ?_⟩
  · intro h0 hre h1 hne
    simp [chat_completions_nonstream, chat_attempts, h0, hre, h1, hne]
  · intro h0 hre h1
    simp [chat_completions_nonstream, chat_attempts, h0, hre, h1]
  · intro h0 hre
    simp [chat_completions_nonstream, chat_attempts, h0, hre]
  · intro h0
    simp [chat_completions_nonstream, chat_attempts, h0]
  · intro h0 hne
    simp [chat_completions_nonstream, chat_attempts, h0, hne]

/-- C4 witness: concrete call sequences exercising all five conjuncts of
the retry policy. -/
theorem chat_completions_retry_policy_witness :
    chat_completions_nonstream true true
        (fun n => if n = 0 then .transportError "rst" else .success "ok" none)
        true = (.ok ("ok", none), 2) ∧
    chat_completions_nonstream true true
        (fun _ => .transportError "rst") true
      = (.error (wrap500 "rst"), 2) ∧
    chat_completions_nonstream true true
        (fun _ => .transportError "rst") false
      = (.error (wrap500 "rst"), 1) ∧
    chat_completions_nonstream true true
        (fun _ => .otherError "boom") true
      = (.error (wrap500 "boom"), 1) ∧
    chat_completions_nonstream true true
        (fun _ => .success "ok" none) true
      = (.ok ("ok", none), 1) := by
  refine ⟨?_, ?_, ?_, ?_, ?_⟩
  · exact (chat_completions_retry_policy
      (fun n => if n = 0 then .transportError "rst" else .success "ok" none)
      true "rst" "" "ok" none).1 rfl rfl rfl (by decide)
  · exact (chat_completions_retry_policy (fun _ => .transportError "rst")
      true "rst" "rst" "" none).2.1 rfl rfl rfl
  · exact (chat_completions_retry_policy (fun _ => .transportError "rst")
      false "rst" "" "" none).2.2.1 rfl rfl
  · exact (chat_completions_retry_policy (fun _ => .otherError "boom")
      true "boom" "" "" none).2.2.2.1 rfl
  · exact (chat_completions_retry_policy (fun _ => .success "ok" none)
      true "" "" "ok" none).2.2.2.2 rfl (by decide)

/-! ## OpenAI-compatible SSE stream generator
(`src/app/endpoints/chat.py`, `generate_openai_stream`)

The generator's yields are modelled as a list of structured events (role
chunk, reasoning delta, content delta, finish chunk, `[DONE]` sentinel);
`render_event` embeds the f-string/`json.dumps` serialization of each
yield, including `ensure_ascii` escaping.  The two kinds of data source
(a full text string, split into 4-character pieces, or an upstream chunk
stream carrying cumulative text/thoughts) are the two constructors of
`StreamSource`.  An exception inside the `async for` merely stops the
consumption of further chunks, which a truncated chunk list already
represents, so no explicit error case is needed. -/

/-- One upstream chunk as consumed by the generator: the `text` and
`thoughts` attributes read with `getattr(chunk, ..., "")`. -/
structure GeminiChunk where
  text : String
  thoughts : String
deriving Repr, DecidableEq

/-- The generator's data source: a full text string (simulated
streaming) or a list of upstream chunks (real streaming). -/
inductive StreamSource where
  | fullText (s : String)
  | chunkStream (cs : List GeminiChunk)

/-- One yield of `generate_openai_stream`, before serialization. -/
inductive StreamEvent where
  | roleChunk
  | thoughtDelta (piece : String)
  | contentDelta (piece : String)
  | finishChunk
  | doneSentinel
deriving Repr, DecidableEq

/-- `data_source[i:i+4] for i in range(0, len(data_source), 4)`:
split a character list into consecutive pieces of (at most) four. -/
def chunkEvery4 : List Char → List (List Char)
  | [] => []
  | c :: cs => (c :: cs.take 3) :: chunkEvery4 (cs.drop 3)
termination_by l => l.length
decreasing_by simp; omega

/-- The thought-handling block of the `async for` body: when the
cumulative `thoughts` is non-empty and grew past the already-emitted
length, yield the new suffix (guarded by its own emptiness check, as in
the source). -/
def thought_events (ch : GeminiChunk) (lastThoughtLen : Nat) :
    List StreamEvent :=
  if ch.thoughts ≠ "" && ch.thoughts.length > lastThoughtLen then
    let piece := (ch.thoughts.data.drop lastThoughtLen).asString
    if piece ≠ "" then [.thoughtDelta piece] else []
  else []

/-- The `last_thought_len` update, performed under the same condition as
the emission (before the emptiness check on the piece). -/
def next_thought_len (ch : GeminiChunk) (lastThoughtLen : Nat) : Nat :=
  if ch.thoughts ≠ "" && ch.thoughts.length > lastThoughtLen then
    ch.thoughts.length
  else lastThoughtLen

/-- The text-handling block of the `async for` body, mirroring
`thought_events` for the cumulative `text`. -/
def text_events (ch : GeminiChunk) (lastTextLen : Nat) : List StreamEvent :=
  if ch.text ≠ "" && ch.text.length > lastTextLen then
    let piece := (ch.text.data.drop lastTextLen).asString
    if piece ≠ "" then [.contentDelta piece] else []
  else []

/-- The `last_text_len` update. -/
def next_text_len (ch : GeminiChunk) (lastTextLen : Nat) : Nat :=
  if ch.text ≠ "" && ch.text.length > lastTextLen then ch.text.length
  else lastTextLen

/-- The `async for chunk in data_source` loop: track the lengths of the
thought and text already emitted, and emit the new suffix of each
cumulative field whenever it grew. -/
def chunk_stream_events : List GeminiChunk → Nat → Nat → List StreamEvent
  | [], _, _ => []
  | ch :: cs, lastTextLen, lastThoughtLen =>
    thought_events ch lastThoughtLen ++ text_events ch lastTextLen
      ++ chunk_stream_events cs (next_text_len ch lastTextLen)
          (next_thought_len ch lastThoughtLen)

/-- Embedding of `generate_openai_stream` as its sequence of yields: the
initial role chunk, the data-dependent content/thought deltas, the finish
chunk, and the `[DONE]` sentinel. -/
def generate_openai_stream (src : StreamSource) : List StreamEvent :=
  StreamEvent.roleChunk ::
    (match src with
     | .fullText s =>
         (chunkEvery4 s.toList).map (fun p => StreamEvent.contentDelta p.asString)
     | .chunkStream cs => chunk_stream_events cs 0 0)
    ++ [StreamEvent.finishChunk, StreamEvent.doneSentinel]

/-- Lowercase hexadecimal digit. -/
def hexDigit (n : Nat) : Char :=
  if n < 10 then Char.ofNat (48 + n) else Char.ofNat (87 + n)

/-- Four lowercase hexadecimal digits, as in `json.dumps` `\uXXXX`
escapes. -/
def hex4 (n : Nat) : String :=
  [hexDigit (n / 4096 % 16), hexDigit (n / 256 % 16),
   hexDigit (n / 16 % 16), hexDigit (n % 16)].asString

/-- `json.dumps` (default `ensure_ascii=True`) escaping of one character:
shorthand escapes for the two-character sequences, printable ASCII
(0x20–0x7e) literal, everything else `\uXXXX` with surrogate pairs for
astral characters. -/
def pyJsonEscapeChar (c : Char) : String :=
  if c = '"' then "\\\""
  else if c = '\\' then "\\\\"
  else if c = '\n' then "\\n"
  else if c = '\x0d' then "\\r"
  else if c = '\t' then "\\t"
  else if c = '\x08' then "\\b"
  else if c = '\x0c' then "\\f"
  else if 32 ≤ c.toNat && c.toNat ≤ 126 then String.singleton c
  else if c.toNat < 65536 then "\\u" ++ hex4 c.toNat
  else
    "\\u" ++ hex4 (55296 + (c.toNat - 65536) / 1024)
      ++ "\\u" ++ hex4 (56320 + (c.toNat - 65536) % 1024)

/-- `json.dumps` of a Python string. -/
def pyJsonStr (s : String) : String :=
  "\"" ++ strConcat (s.toList.map pyJsonEscapeChar) ++ "\""

/-- One SSE frame `data: {json.dumps(chunk)}\n\n` for a
`chat.completion.chunk` object with the given serialized delta and
finish reason (`json.dumps` default separators, insertion order of the
source dict). -/
def sse_chunk_json (request_id : String) (created : Nat) (model : String)
    (delta finish : String) : String :=
  "data: \x7b\"id\": " ++ pyJsonStr request_id
    ++ ", \"object\": \"chat.completion.chunk\", \"created\": "
    ++ toString created ++ ", \"model\": " ++ pyJsonStr model
    ++ ", \"choices\": [\x7b\"index\": 0, \"delta\": " ++ delta
    ++ ", \"finish_reason\": " ++ finish ++ "\x7d]\x7d\n\n"

/-- Serialization of each yield of the generator. -/
def render_event (request_id : String) (created : Nat) (model : String) :
    StreamEvent → String
  | .roleChunk =>
      sse_chunk_json request_id created model
        "\x7b\"role\": \"assistant\"\x7d" "null"
  | .thoughtDelta p =>
      sse_chunk_json request_id created model
        ("\x7b\"reasoning_content\": " ++ pyJsonStr p ++ "\x7d") "null"
  | .contentDelta p =>
      sse_chunk_json request_id created model
        ("\x7b\"content\": " ++ pyJsonStr p ++ "\x7d") "null"
  | .finishChunk =>
      sse_chunk_json request_id created model "\x7b\x7d" "\"stop\""
  | .doneSentinel => "data: [DONE]\n\n"

/-- Concatenation of the delta-content pieces of a list of events. -/
def content_concat (evs : List StreamEvent) : String :=
  strConcat (evs.filterMap fun e =>
    match e with
    | .contentDelta p => some p
    | _ => none)

lemma strConcat_append (a b : List String) :
    strConcat (a ++ b) = strConcat a ++ strConcat b := by
  induction a with
  | nil => simp [strConcat]
  | cons s ss ih => simp [strConcat, ih, String.append_assoc]

lemma asString_append (a b : List Char) :
    (a ++ b).asString = a.asString ++ b.asString := rfl

lemma content_concat_append (a b : List StreamEvent) :
    content_concat (a ++ b) = content_concat a ++ content_concat b := by
  simp [content_concat, List.filterMap_append, strConcat_append]

lemma content_concat_thought_events (ch : GeminiChunk) (n : Nat) :
    content_concat (thought_events ch n) = "" := by
  unfold thought_events
  split
  · dsimp only
    split <;> rfl
  · rfl

lemma strConcat_map_asString (ls : List (List Char)) :
    strConcat (ls.map List.asString) = ls.flatten.asString := by
  induction ls with
  | nil => rfl
  | cons l ls ih =>
      rw [List.map_cons, strConcat, ih, List.flatten_cons, asString_append]

lemma chunkEvery4_flatten (l : List Char) : (chunkEvery4 l).flatten = l := by
  induction l using chunkEvery4.induct with
  | case1 => simp [chunkEvery4]
  | case2 c cs ih =>
      rw [chunkEvery4, List.flatten_cons, ih]
      simp [List.take_append_drop]

lemma getLast?_getD_cons (a x : String) (l : List String) :
    ((a :: l).getLast?).getD x = (l.getLast?).getD a := by
  cases l with
  | nil => rfl
  | cons b l =>
      rw [List.getLast?_cons_cons]
      cases h : (b :: l).getLast? with
      | none => exact absurd h (by simp)
      | some v => rfl

lemma asString_eq_empty_iff (l : List Char) : l.asString = "" ↔ l = [] := by
  constructor
  · intro h
    have := congrArg String.data h
    simpa using this
  · intro h
    rw [h]; rfl

lemma toList_asString (s : String) : s.toList.asString = s := by
  cases s; rfl

lemma empty_append_str (s : String) : "" ++ s = s := by
  cases s; rfl

lemma getLast?_stream_shape (mid : List StreamEvent)
    (f : StreamEvent → String) :
    ((StreamEvent.roleChunk ::
        (mid ++ [StreamEvent.finishChunk, StreamEvent.doneSentinel])).map
      f).getLast? = some (f .doneSentinel) := by
  rw [List.getLast?_map]
  rw [show StreamEvent.roleChunk ::
        (mid ++ [StreamEvent.finishChunk, StreamEvent.doneSentinel])
      = (StreamEvent.roleChunk :: (mid ++ [StreamEvent.finishChunk]))
        ++ [StreamEvent.doneSentinel] by simp]
  rw [List.getLast?_concat]
  rfl

lemma content_concat_wrap (mid : List StreamEvent) :
    content_concat (StreamEvent.roleChunk ::
        (mid ++ [StreamEvent.finishChunk, StreamEvent.doneSentinel]))
      = content_concat mid := by
  rw [show StreamEvent.roleChunk ::
        (mid ++ [StreamEvent.finishChunk, StreamEvent.doneSentinel])
      = [StreamEvent.roleChunk] ++ mid
        ++ [StreamEvent.finishChunk, StreamEvent.doneSentinel] by simp]
  rw [content_concat_append, content_concat_append]
  simp [content_concat, strConcat]

lemma content_concat_map_delta {α : Type} (f : α → String) (ls : List α) :
    content_concat (ls.map (fun p => StreamEvent.contentDelta (f p)))
      = strConcat (ls.map f) := by
  induction ls with
  | nil => rfl
  | cons a l ih =>
      rw [List.map_cons, List.map_cons,
        show StreamEvent.contentDelta (f a)
            :: l.map (fun p => StreamEvent.contentDelta (f p))
          = [StreamEvent.contentDelta (f a)]
            ++ l.map (fun p => StreamEvent.contentDelta (f p)) from rfl,
        content_concat_append, ih]
      simp [content_concat, strConcat]

/-- Invariant of the chunk loop: starting from an already-emitted text
`t0` that every later cumulative text extends, the emitted content deltas
concatenate, after `t0`, to the last chunk's full text (or stay at `t0`
for an empty stream). -/
lemma chunk_stream_concat (cs : List GeminiChunk) (t0 : String) (lth : Nat)
    (h : List.Chain (fun a b : String => a.data <+: b.data) t0
      (cs.map GeminiChunk.text)) :
    t0 ++ content_concat (chunk_stream_events cs t0.length lth)
      = ((cs.map GeminiChunk.text).getLast?).getD t0 := by
  induction cs generalizing t0 lth with
  | nil => simp [chunk_stream_events, content_concat, strConcat]
  | cons ch cs ih =>
      rw [List.map_cons, List.chain_cons] at h
      obtain ⟨hp, hchain⟩ := h
      rw [chunk_stream_events, content_concat_append, content_concat_append,
        content_concat_thought_events, List.map_cons, getLast?_getD_cons]
      have hT : t0.length = t0.data.length := rfl
      have hC : ch.text.length = ch.text.data.length := rfl
      by_cases hlt : t0.length < ch.text.length
      · have hne : ch.text ≠ "" := by
          intro he
          rw [he] at hlt
          simp at hlt
        have hdropne : ch.text.data.drop t0.length ≠ [] := by
          intro hnil
          have := congrArg List.length hnil
          simp at this
          omega
        have hpiece : (ch.text.data.drop t0.length).asString ≠ "" := by
          rw [ne_eq, asString_eq_empty_iff]
          exact hdropne
        have htev : text_events ch t0.length
            = [.contentDelta (ch.text.data.drop t0.length).asString] := by
          simp [text_events, hne, hlt, hpiece]
        have hnext : next_text_len ch t0.length = ch.text.length := by
          simp [next_text_len, hne, hlt]
        have hjoin : t0 ++ (ch.text.data.drop t0.length).asString
            = ch.text := by
          apply String.ext
          rw [String.data_append]
          have ht := List.prefix_iff_eq_take.mp hp
          have hstep : t0.data ++ ch.text.data.drop t0.length
              = ch.text.data := by
            conv_lhs => rw [show t0.data = ch.text.data.take t0.length from ht]
            rw [List.take_append_drop]
          exact hstep
        have hconc : content_concat
            [StreamEvent.contentDelta (ch.text.data.drop t0.length).asString]
            = (ch.text.data.drop t0.length).asString := by
          simp [content_concat, strConcat]
        rw [htev, hnext, hconc, empty_append_str, ← String.append_assoc,
          hjoin]
        exact ih ch.text (next_thought_len ch lth) hchain
      · have h1 : t0.data.length ≤ ch.text.data.length := hp.length_le
        have h2 : ch.text.data.length ≤ t0.data.length :=
          Nat.le_of_not_lt hlt
        have heqL : t0.data = ch.text.data :=
          List.IsPrefix.eq_of_length hp (Nat.le_antisymm h1 h2)
        have heq : t0 = ch.text := String.ext heqL
        have htev : text_events ch t0.length = [] := by
          simp [text_events, hlt]
        have hnext : next_text_len ch t0.length = t0.length := by
          simp [next_text_len, hlt]
        rw [htev, hnext,
          show content_concat ([] : List StreamEvent) = "" from rfl,
          empty_append_str, empty_append_str, heq]
        exact ih ch.text (next_thought_len ch lth) hchain

/-- C5: every generated SSE stream ends with the literal
`data: [DONE]\n\n` frame, and the delta-content pieces concatenate back
to the full upstream text: for a string source the 4-character pieces
rebuild the string, and for a chunk stream carrying cumulative text (each
chunk's text extends the previous one's) they rebuild the final chunk's
full text. -/
theorem generate_openai_stream_spec :
    (∀ (rid : String) (created : Nat) (model : String) (src : StreamSource),
      ((generate_openai_stream src).map
          (render_event rid created model)).getLast?
        = some "data: [DONE]\n\n") ∧
    (∀ s : String,
      content_concat (generate_openai_stream (.fullText s)) = s) ∧
    (∀ cs : List GeminiChunk,
      List.Chain' (fun a b : GeminiChunk => a.text.data <+: b.text.data) cs →
      content_concat (generate_openai_stream (.chunkStream cs))
        = ((cs.map GeminiChunk.text).getLast?).getD "") := by
  refine ⟨?_, ?_, ?_⟩
  · intro rid created model src
    cases src with
    | fullText s =>
        exact getLast?_stream_shape
          ((chunkEvery4 s.toList).map
            (fun p => StreamEvent.contentDelta p.asString))
          (render_event rid created model)
    | chunkStream cs =>
        exact getLast?_stream_shape (chunk_stream_events cs 0 0)
          (render_event rid created model)
  · intro s
    have h1 : generate_openai_stream (.fullText s)
        = StreamEvent.roleChunk ::
          ((chunkEvery4 s.toList).map
              (fun p => StreamEvent.contentDelta p.asString)
            ++ [StreamEvent.finishChunk, StreamEvent.doneSentinel]) := rfl
    rw [h1, content_concat_wrap, content_concat_map_delta List.asString,
      strConcat_map_asString, chunkEvery4_flatten, toList_asString]
  · intro cs hchain
    have h1 : generate_openai_stream (.chunkStream cs)
        = StreamEvent.roleChunk ::
          (chunk_stream_events cs 0 0
            ++ [StreamEvent.finishChunk, StreamEvent.doneSentinel]) := rfl
    rw [h1, content_concat_wrap]
    have hchainS : List.Chain (fun a b : String => a.data <+: b.data) ""
        (cs.map GeminiChunk.text) := by
      cases cs with
      | nil => exact List.Chain.nil
      | cons c cs' =>
          rw [List.map_cons, List.chain_cons]
          refine ⟨List.nil_prefix, ?_⟩
          have h2 := (List.chain'_map
            (R := fun a b : String => a.data <+: b.data)
            GeminiChunk.text).mpr hchain
          rw [List.map_cons] at h2
          exact h2
    have h3 := chunk_stream_concat cs "" 0 hchainS
    rw [empty_append_str] at h3
    exact h3

/-- C5 witness: the stream properties at concrete inputs — a two-chunk
cumulative stream ends in the `[DONE]` frame and rebuilds `"abcd"`, and
the string source `"hello!"` rebuilds itself. -/
theorem generate_openai_stream_spec_witness :
    ((generate_openai_stream
        (.chunkStream [⟨"ab", ""⟩, ⟨"abcd", "th"⟩])).map
          (render_event "cid" 3 "gemini-3.0-pro")).getLast?
      = some "data: [DONE]\n\n" ∧
    content_concat (generate_openai_stream (.fullText "hello!"))
      = "hello!" ∧
    content_concat (generate_openai_stream
        (.chunkStream [⟨"ab", ""⟩, ⟨"abcd", "th"⟩])) = "abcd" := by
  refine ⟨?_, ?_, ?_⟩
  · exact generate_openai_stream_spec.1 "cid" 3 "gemini-3.0-pro" _
  · exact generate_openai_stream_spec.2.1 "hello!"
  · have h := generate_openai_stream_spec.2.2
      [⟨"ab", ""⟩, ⟨"abcd", "th"⟩] (List.Chain.cons ⟨['c', 'd'], rfl⟩ List.Chain.nil)
    simpa using h

/-! ## Configuration loader (`src/app/config.py`, `load_config`)

A configuration is the ordered list of sections, each an ordered list of
key/value pairs, exactly as `configparser.ConfigParser` stores it (keys
passed through `optionxform = str.lower` on assignment and on read).  A
file is a `List Char`.  `write_config` embeds `ConfigParser.write`
(`[section]`, `key = value` with the ` = ` delimiter, a blank line after
each section); `parse_config` embeds the subset of `ConfigParser.read`
these files exercise (section header lines, option lines split at the
first `=`/`:` delimiter with both sides stripped and the key lowercased,
blank lines skipped; no continuation lines, comments or interpolation,
none of which occur in files this loader writes). -/

/-- A parsed INI configuration: sections in insertion order, each with
its options in insertion order. -/
abbrev IniConfig := List (String × List (String × String))

/-- Split a character list on newline characters, keeping empty pieces. -/
def splitOnNl : List Char → List (List Char)
  | [] => [[]]
  | c :: cs =>
    if c = '\n' then [] :: splitOnNl cs
    else
      match splitOnNl cs with
      | l :: ls => (c :: l) :: ls
      | [] => [[c]]

/-- Split an option line at the first `=` or `:` delimiter
(`ConfigParser`'s non-greedy option pattern). -/
def splitFirstDelim : List Char → Option (List Char × List Char)
  | [] => none
  | c :: cs =>
    if c = '=' ∨ c = ':' then some ([], cs)
    else
      match splitFirstDelim cs with
      | some (k, v) => some (c :: k, v)
      | none => none

/-- Line-by-line INI parsing with the current (not yet flushed) section
carried along; unparsable lines are skipped (the caller wraps `read` in a
broad `except` and proceeds with whatever was parsed). -/
def parse_sections : List (List Char) →
    Option (String × List (String × String)) → IniConfig
  | [], cur => match cur with | none => [] | some sec => [sec]
  | l :: ls, cur =>
    if l = [] then parse_sections ls cur
    else if l.head? = some '[' ∧ l.getLast? = some ']' then
      (match cur with | none => [] | some sec => [sec])
        ++ parse_sections ls (some ((l.drop 1).dropLast.asString, []))
    else
      match splitFirstDelim l with
      | some (k, v) =>
        match cur with
        | some sec =>
            parse_sections ls (some (sec.1, sec.2
              ++ [(pyLower (pyStrip k.asString), pyStrip v.asString)]))
        | none => parse_sections ls none
      | none => parse_sections ls cur

/-- Embedding of the `config.read` subset. -/
def parse_config (content : List Char) : IniConfig :=
  parse_sections (splitOnNl content) none

/-- Embedding of `ConfigParser.write`. -/
def write_config (c : IniConfig) : List Char :=
  (c.map (fun sec =>
    ('[' :: sec.1.toList ++ [']', '\n'])
      ++ (sec.2.map (fun kv =>
            kv.1.toList ++ (' ' :: '=' :: ' ' :: kv.2.toList) ++ ['\n'])).flatten
      ++ ['\n'])).flatten

/-- `if name not in config: config[name] = {...}` — append the section
with its keys lowercased by `optionxform` when it is absent. -/
def setDefaultSection (c : IniConfig) (name : String)
    (items : List (String × String)) : IniConfig :=
  if c.any (fun sec => sec.1 = name) then c
  else c ++ [(name, items.map (fun kv => (pyLower kv.1, kv.2)))]

/-- The `CustomHeaders` default section, keys as written in the source
(lowercased on assignment by `optionxform`). -/
def default_custom_headers : List (String × String) :=
  [("User-Agent", "Mozilla/5.0 (Windows NT 10.0; Win64; x64) AppleWebKit/537.36 (KHTML, like Gecko) Chrome/145.0.0.0 Safari/537.36"),
   ("Accept", "*/*"),
   ("Accept-Language", "zh-CN,zh;q=0.9,en;q=0.8,en-GB;q=0.7,en-US;q=0.6"),
   ("X-Same-Domain", "1"),
   ("Sec-Fetch-Dest", "empty"),
   ("Sec-Fetch-Mode", "cors"),
   ("Sec-Fetch-Site", "same-origin"),
   ("Sec-Ch-Ua", "\"Not:A-Brand\";v=\"99\", \"Chromium\";v=\"145\", \"Google Chrome\";v=\"145\""),
   ("Sec-Ch-Ua-Arch", "\"x86\""),
   ("Sec-Ch-Ua-Bitness", "\"64\""),
   ("Sec-Ch-Ua-Form-Factors", "\"Desktop\""),
   ("Sec-Ch-Ua-Full-Version", "\"145.0.7632.76\""),
   ("Sec-Ch-Ua-Mobile", "?0"),
   ("Sec-Ch-Ua-Model", "\"\""),
   ("Sec-Ch-Ua-Platform", "\"Windows\""),
   ("Sec-Ch-Ua-Platform-Version", "\"12.0.0\""),
   ("Sec-Ch-Ua-Wow64", "?0"),
   ("X-Browser-Channel", "stable"),
   ("X-Browser-Year", "1969"),
   ("X-Goog-Ext-525005358-jspb", "[\"37CE75D3-5F5D-4E7E-89AB-EE274C4C61A9\",1]"),
   ("X-Goog-Ext-73010989-jspb", "[0]"),
   ("Origin", "https://gemini.google.com"),
   ("Referer", "https://gemini.google.com/")]

/-- Embedding of `load_config`: read the file when present (missing file
leaves the configuration empty), append each missing default section, and
persist the result; returns the configuration and the written file
content. -/
def load_config (file : Option (List Char)) : IniConfig × List Char :=
  let config0 := match file with
    | none => []
    | some content => parse_config content
  let c1 := setDefaultSection config0 "Browser" [("name", "chrome")]
  let c2 := setDefaultSection c1 "Cookies" []
  let c3 := setDefaultSection c2 "AI"
    [("default_model_gemini", "gemini-3.0-pro")]
  let c4 := setDefaultSection c3 "Proxy" [("http_proxy", "")]
  let c5 := setDefaultSection c4 "Auth" [("api_key", "")]
  let c6 := setDefaultSection c5 "Logging" [("debug", "false")]
  let c7 := setDefaultSection c6 "CustomHeaders" default_custom_headers
  (c7, write_config c7)

/-- The documented default configuration, with keys as `configparser`
stores them (lowercased). -/
def expected_default_config : IniConfig :=
  [("Browser", [("name", "chrome")]),
   ("Cookies", []),
   ("AI", [("default_model_gemini", "gemini-3.0-pro")]),
   ("Proxy", [("http_proxy", "")]),
   ("Auth", [("api_key", "")]),
   ("Logging", [("debug", "false")]),
   ("CustomHeaders",
     default_custom_headers.map (fun kv => (pyLower kv.1, kv.2)))]

set_option maxRecDepth 40000

/-- C6: loading with no file present produces exactly the documented
default sections and keys and persists them, and loading again from the
file written by the first load yields the identical configuration and
rewrites the identical file. -/
theorem load_config_defaults_idempotent :
    (load_config none).1 = expected_default_config ∧
    load_config (some (load_config none).2) = load_config none := by
  constructor
  · rfl
  · rfl

/-! ## Model-discovery cache
(`src/app/endpoints/models.py`, `_discover_gemini_models`)

The module-level state (`_CACHED_MODELS`, `_CACHE_TIMESTAMP`) is a
record; `time.time()` is the `now` argument (an integer model of the
clock suffices for the 3600-second TTL comparisons); the Gemini client
presence and the library's model constants are the remaining inputs.  The
function returns the model list together with the updated state. -/

/-- The module-level cache: `_CACHED_MODELS` and `_CACHE_TIMESTAMP`. -/
structure ModelsCache where
  cached : Option (List String)
  timestamp : Int
deriving Repr, DecidableEq

/-- Fallback returned when the Gemini client is not initialized. -/
def fallback_models_no_client : List String :=
  ["gemini-3.0-pro", "gemini-3.0-flash", "gemini-3.0-flash-thinking"]

/-- Fallback returned when discovery from the library constants fails. -/
def fallback_models_discovery_failed : List String :=
  ["gemini-3.0-pro", "gemini-3.0-flash", "gemini-3.0-flash-thinking",
   "gemini-2.0-flash-thinking-exp", "gemini-2.0-pro-exp",
   "gemini-2.0-flash"]

/-- `[m.model_name for m in GeminiModel if m.model_name and
m.model_name.lower() != "unspecified"]`. -/
def valid_models (lib : List String) : List String :=
  lib.filter (fun m => m ≠ "" && pyLower m ≠ "unspecified")

/-- Embedding of `_discover_gemini_models`: return the cached list while
it is present and younger than `_CACHE_TTL = 3600`; otherwise return the
no-client fallback (without caching), or the valid library models
(caching them with the current time), or the discovery-failure fallback
(without caching). -/
def discover_gemini_models (st : ModelsCache) (now : Int)
    (client_init : Bool) (lib : List String) :
    List String × ModelsCache :=
  if h : st.cached.isSome ∧ now - st.timestamp < 3600 then
    (st.cached.get h.1, st)
  else if !client_init then (fallback_models_no_client, st)
  else
    let vm := valid_models lib
    if vm ≠ [] then (vm, { cached := some vm, timestamp := now })
    else (fallback_models_discovery_failed, st)

/-- C7 counterexample: two calls 10 seconds apart (well inside the
3600-second TTL) return different lists when the first call could not
populate the cache (client uninitialized) and the second call discovers
models: the claim that any two calls within the TTL window return
identical results is false. -/
theorem discover_models_ttl_counterexample :
    ((20 : Int) - 10 < 3600) ∧
    (discover_gemini_models ⟨none, 0⟩ 10 false []).1
      ≠ (discover_gemini_models
          (discover_gemini_models ⟨none, 0⟩ 10 false []).2
          20 true ["gemini-x"]).1 := by decide

/-- C7 (amended): a call finding a cache entry younger than 3600 seconds
returns exactly the cached list and leaves the state unchanged (so two
calls within the TTL agree once the first has populated the cache); a
successful discovery stores its result with the current time; and a call
made 3600 seconds or more after the cached timestamp ignores the cache
and returns what a fresh discovery over the same inputs returns. -/
theorem discover_models_cache_spec :
    (∀ (st : ModelsCache) (ms : List String) (now : Int) (c : Bool)
        (lib : List String),
      st.cached = some ms → now - st.timestamp < 3600 →
      discover_gemini_models st now c lib = (ms, st)) ∧
    (∀ (t now : Int) (lib : List String),
      valid_models lib ≠ [] →
      discover_gemini_models ⟨none, t⟩ now true lib
        = (valid_models lib, ⟨some (valid_models lib), now⟩)) ∧
    (∀ (st : ModelsCache) (now : Int) (c : Bool) (lib : List String),
      3600 ≤ now - st.timestamp →
      (discover_gemini_models st now c lib).1
        = (discover_gemini_models ⟨none, st.timestamp⟩ now c lib).1) := by
  refine ⟨?_, ?_, ?_⟩
  · intro st ms now c lib hc ht
    simp [discover_gemini_models, hc, ht]
  · intro t now lib hv
    simp [discover_gemini_models, hv]
  · intro st now c lib h
    obtain ⟨cached, ts⟩ := st
    have h' : (3600 : Int) ≤ now - ts := h
    have hnot : ¬ (now - ts < 3600) := by omega
    cases cached with
    | none => rfl
    | some ms =>
        simp only [discover_gemini_models, Option.isSome_some, hnot,
          and_false, dite_false, Option.isSome_none, false_and]
        split
        · rfl
        · split
          · rfl
          · rfl

/-- C7 witness: the amended cache behaviour at concrete inputs — a fresh
cache entry is returned as-is within the TTL, a successful discovery
caches its result, and an expired cache entry is ignored. -/
theorem discover_models_cache_spec_witness :
    discover_gemini_models ⟨some ["m"], 0⟩ 10 true ["x"]
      = (["m"], ⟨some ["m"], 0⟩) ∧
    discover_gemini_models ⟨none, 0⟩ 5 true ["a"]
      = (["a"], ⟨some ["a"], 5⟩) ∧
    (discover_gemini_models ⟨some ["m"], 0⟩ 4000 true ["a"]).1
      = (discover_gemini_models ⟨none, 0⟩ 4000 true ["a"]).1 := by
  refine ⟨?_, ?_, ?_⟩
  · exact discover_models_cache_spec.1 ⟨some ["m"], 0⟩ ["m"] 10 true ["x"]
      rfl (by decide)
  · have h := discover_models_cache_spec.2.1 0 5 ["a"] (by decide)
    rw [show valid_models ["a"] = ["a"] from rfl] at h
    exact h
  · exact discover_models_cache_spec.2.2 ⟨some ["m"], 0⟩ 4000 true ["a"]
      (by decide)

/-! ## Route-handler error boundaries
(`src/app/endpoints/gemini.py`, `src/app/endpoints/google_generative.py`,
`src/app/endpoints/chat.py`, `src/app/endpoints/models.py`)

Each POST handler checks the global client, runs its body, and wraps any
exception from the body in `HTTPException(500, "<prefix>: " + str(e))`.
The body's outcome is an `Except String` argument (`.error m` = the body
raised an exception whose `str()` is `m`).  The force-discovery GET
endpoint is the deliberate exception: it interprets the raised
exception's text as data and returns a normal (status 200) JSON payload,
never a 500. -/

/-- `/translate` (`translate_chat`): success returns the response text. -/
def translate_chat (client_init : Bool) (call : Except String String) :
    Except HttpError String :=
  if !client_init then .error ⟨503, "Gemini client is not initialized."⟩
  else
    match call with
    | .ok t => .ok t
    | .error m => .error ⟨500, "Error during translation: " ++ m⟩

/-- `/gemini` (`gemini_generate`). -/
def gemini_generate (client_init : Bool) (call : Except String String) :
    Except HttpError String :=
  if !client_init then .error ⟨503, "Gemini client is not initialized."⟩
  else
    match call with
    | .ok t => .ok t
    | .error m => .error ⟨500, "Error generating content: " ++ m⟩

/-- `/gemini-chat` (`gemini_chat`). -/
def gemini_chat (client_init : Bool) (call : Except String String) :
    Except HttpError String :=
  if !client_init then .error ⟨503, "Gemini client is not initialized."⟩
  else
    match call with
    | .ok t => .ok t
    | .error m => .error ⟨500, "Error in chat: " ++ m⟩

/-- The result dict of `gemini_client.generate_image`, reduced to the
keys the handler reads; `url = ""` models a present-but-falsy url. -/
structure ImageResult where
  url : Option String
  local_path : Option String
  base64_data : Option String
deriving Repr, DecidableEq

/-- `/gemini-image` (`gemini_image`): the 424 `HTTPException` raised for
a missing url inside the `try` block is itself an `Exception`, so the
handler's own `except Exception` converts it into a 500 whose detail
embeds `str(e) = "424: ..."`. -/
def gemini_image (client_init : Bool)
    (call : Except String (Option ImageResult)) :
    Except HttpError (Option String × Option String) :=
  if !client_init then .error ⟨503, "Gemini client is not initialized."⟩
  else
    match call with
    | .error m => .error ⟨500, "Error generating image: " ++ m⟩
    | .ok res =>
        match res with
        | some r =>
            if r.url.getD "" ≠ "" then .ok (r.local_path, r.base64_data)
            else
              .error ⟨500, "Error generating image: 424: Failed to generate image. Please checking logs or your account permissions."⟩
        | none =>
            .error ⟨500, "Error generating image: 424: Failed to generate image. Please checking logs or your account permissions."⟩

/-- `/v1beta/models/{model}` (`google_generative_generate`): success is
reshaped into the Google response envelope, modelled by its text. -/
def google_generative_generate (client_init : Bool)
    (call : Except String String) : Except HttpError String :=
  if !client_init then .error ⟨503, "Gemini client is not initialized."⟩
  else
    match call with
    | .ok t => .ok t
    | .error m => .error ⟨500, "Error generating content: " ++ m⟩

/-- Backtracking capture of `\s*(.+)` at the start of `r` (Python `re`
semantics: the whitespace run is consumed greedily, then backs off until
at least one non-newline character can start the capture, which then
extends to the end of the line). -/
def regexDotPlusAfterWs (r : List Char) : Option (List Char) :=
  let w := r.takeWhile pyIsSpace
  let rest := r.drop w.length
  if rest ≠ [] then some (rest.takeWhile (· ≠ '\n'))
  else
    match w.reverse.dropWhile (· = '\n') with
    | [] => none
    | c :: _ => some [c]

/-- `re.search(r"Available models:\s*(.+)", s)`: scan for an occurrence
of the literal marker whose remainder admits the `\s*(.+)` match, and
return the capture. -/
def searchAvailableModels : List Char → Option (List Char)
  | [] => none
  | c :: cs =>
    if ("Available models:".toList).isPrefixOf (c :: cs) then
      match regexDotPlusAfterWs ((c :: cs).drop 17) with
      | some cap => some cap
      | none => searchAvailableModels cs
    else searchAvailableModels cs

/-- Python `str.split(sep)` for a single-character separator. -/
def pySplitOnChar (sep : Char) : List Char → List (List Char)
  | [] => [[]]
  | c :: cs =>
    if c = sep then [] :: pySplitOnChar sep cs
    else
      match pySplitOnChar sep cs with
      | l :: ls => (c :: l) :: ls
      | [] => [[c]]

/-- The 200-status payload of the force-discovery endpoint: either a
model list or an error dict — never an HTTP error. -/
inductive DiscoveryResp where
  | models (ids : List String) (ts : Int)
  | errorDict (msg : String)
deriving Repr, DecidableEq

/-- `/models/force_discovery` (`force_discover_models`): the upstream
call is expected to raise; the exception text is parsed with
`re.search(r"Available models:\s*(.+)", str(e))`, split on commas,
stripped, filtered, and returned as a 200 payload (updating the module
cache); parse failure returns a 200 error dict.  No exception becomes an
HTTP 500 here. -/
def force_discover_models (client_init : Bool)
    (call : Except String Unit) (st : ModelsCache) (now : Int) :
    DiscoveryResp × ModelsCache :=
  if !client_init then (.errorDict "Gemini client not initialized", st)
  else
    match call with
    | .ok _ => (.errorDict "Failed to trigger model validation error", st)
    | .error e =>
        match searchAvailableModels e.toList with
        | some cap =>
            let models_list :=
              (pySplitOnChar ',' cap).map (fun m => pyStrip m.asString)
            let valid := models_list.filter
              (fun m => m ≠ "" && pyLower m ≠ "unspecified")
            if valid ≠ [] then
              (.models valid now, ⟨some valid, now⟩)
            else
              (.errorDict ("Could not parse models from error: " ++ e), st)
        | none =>
            (.errorDict ("Could not parse models from error: " ++ e), st)

/-- C8 counterexample: an exception raised inside the force-discovery
handler's body is caught but answered with a normal 200 JSON payload,
not an HTTP 500 carrying the message — so "every route handler converts
body exceptions to an HTTP 500" is false. -/
theorem force_discovery_no_500_counterexample :
    force_discover_models true (.error "boom") ⟨none, 0⟩ 5
      = (.errorDict "Could not parse models from error: boom",
         ⟨none, 0⟩) := by decide

/-- C8 (amended): for the six request-processing handlers, any exception
raised by the body surfaces as an HTTP 500 whose detail is the handler's
prefix followed by the exception's message (so the detail contains the
message); the force-discovery endpoint instead returns a 200 payload
derived from the exception text. -/
theorem handler_error_boundary_500 (m : String) :
    translate_chat true (.error m)
      = .error ⟨500, "Error during translation: " ++ m⟩ ∧
    gemini_generate true (.error m)
      = .error ⟨500, "Error generating content: " ++ m⟩ ∧
    gemini_chat true (.error m)
      = .error ⟨500, "Error in chat: " ++ m⟩ ∧
    gemini_image true (.error m)
      = .error ⟨500, "Error generating image: " ++ m⟩ ∧
    google_generative_generate true (.error m)
      = .error ⟨500, "Error generating content: " ++ m⟩ ∧
    chat_completions_nonstream true true (fun _ => .otherError m) true
      = (.error ⟨500, "Error processing chat completion: " ++ m⟩, 1) ∧
    (∀ (st : ModelsCache) (now : Int),
      (force_discover_models true
          (.error "boom Available models: unspecified, gemini-a, gemini-b")
          st now).1
        = .models ["gemini-a", "gemini-b"] now) := by
  refine ⟨rfl, rfl, rfl, rfl, rfl, ?_, ?_⟩
  · simp [chat_completions_nonstream, chat_attempts, wrap500]
  · intro st now
    rfl

/-! ## Browser cookie lookup
(`src/app/utils/browser.py`, `get_cookie_from_browser`)

A cookie object is modelled attribute by attribute: the outer `Option`
is `hasattr` (the DevTools path builds `SimpleNamespace` objects whose
attributes may also be Python `None`, the inner `Option`).  The whole of
`extractor.get_cookies_with_fallback` (and the `try` around it) is the
`fetch` argument: `.error ()` = it raised, `.ok none` = it returned a
falsy result (`None` or an empty jar), `.ok (some cs)` = the cookie
list.  Evaluating `"google" in cookie.domain` with `domain = None`
raises `TypeError`, caught by the loop's `except` — the scan therefore
returns `Except Unit`. -/

/-- A cookie as inspected by the loop: each field is `none` when the
attribute is missing, `some none` when it is present but `None`, and
`some (some s)` when it is a string. -/
structure PyCookie where
  name : Option (Option String)
  value : Option (Option String)
  domain : Option (Option String)
deriving Repr, DecidableEq

/-- `needle in hay` on Python strings (contiguous substring test). -/
def sublistCheck (pat : List Char) : List Char → Bool
  | [] => pat.isEmpty
  | c :: cs => pat.isPrefixOf (c :: cs) || sublistCheck pat cs

/-- `"google" in d`. -/
def googleInDomain (d : String) : Bool :=
  sublistCheck "google".toList d.toList

/-- The `for cookie in cookies` loop: the pair carries the current
`secure_1psid`/`secure_1psidts` Python values (`none` = `None`); a
matching name with a `None` domain raises `TypeError` (`.error ()`);
later matches overwrite earlier ones. -/
def gemini_cookie_scan :
    List PyCookie → Option String × Option String →
    Except Unit (Option String × Option String)
  | [], st => .ok st
  | c :: cs, (psid, psidts) =>
    match c.name, c.value, c.domain with
    | some nm, some v, some d =>
        if nm = some "__Secure-1PSID" then
          match d with
          | none => .error ()
          | some ds =>
              if googleInDomain ds then gemini_cookie_scan cs (v, psidts)
              else gemini_cookie_scan cs (psid, psidts)
        else if nm = some "__Secure-1PSIDTS" then
          match d with
          | none => .error ()
          | some ds =>
              if googleInDomain ds then gemini_cookie_scan cs (psid, v)
              else gemini_cookie_scan cs (psid, psidts)
        else gemini_cookie_scan cs (psid, psidts)
    | _, _, _ => gemini_cookie_scan cs (psid, psidts)

/-- Embedding of `get_cookie_from_browser`: fetch the cookies (any
exception or falsy result gives `none`), scan for the two Gemini cookies
on a google domain (a scan exception gives `none`), demand both values
truthy and non-empty after stripping, and return the pair. -/
def get_cookie_from_browser (service : String)
    (fetch : Except Unit (Option (List PyCookie))) :
    Option (String × String) :=
  match fetch with
  | .error _ => none
  | .ok none => none
  | .ok (some cookies) =>
      if cookies.isEmpty then none
      else if service = "gemini" then
        match gemini_cookie_scan cookies (none, none) with
        | .error _ => none
        | .ok (secure_1psid, secure_1psidts) =>
            match secure_1psid, secure_1psidts with
            | some a, some b =>
                if a ≠ "" ∧ b ≠ "" then
                  if (pyStrip a).length = 0 ∨ (pyStrip b).length = 0 then
                    none
                  else some (a, b)
                else none
            | _, _ => none
      else none

/-- Invariant of the scan: a final `secure_1psid` value is either the
starting value or the value of some `__Secure-1PSID` cookie on a google
domain in the list, and symmetrically for `secure_1psidts`. -/
lemma gemini_cookie_scan_origin (cs : List PyCookie)
    (p q : Option String) :
    ∀ (p0 q0 : Option String),
    gemini_cookie_scan cs (p0, q0) = .ok (p, q) →
    (p = p0 ∨ ∃ c ∈ cs, c.name = some (some "__Secure-1PSID") ∧
      (∃ ds, c.domain = some (some ds) ∧ googleInDomain ds = true) ∧
      c.value = some p) ∧
    (q = q0 ∨ ∃ c ∈ cs, c.name = some (some "__Secure-1PSIDTS") ∧
      (∃ ds, c.domain = some (some ds) ∧ googleInDomain ds = true) ∧
      c.value = some q) := by
  induction cs with
  | nil =>
      intro p0 q0 h
      rw [gemini_cookie_scan] at h
      cases h
      exact ⟨Or.inl rfl, Or.inl rfl⟩
  | cons c cs ih =>
      intro p0 q0 h
      rw [gemini_cookie_scan] at h
      have step : ∀ (x y : Option String),
          gemini_cookie_scan cs (x, y) = .ok (p, q) →
          (p = x ∨ ∃ c' ∈ c :: cs,
            c'.name = some (some "__Secure-1PSID") ∧
            (∃ ds, c'.domain = some (some ds) ∧ googleInDomain ds = true) ∧
            c'.value = some p) ∧
          (q = y ∨ ∃ c' ∈ c :: cs,
            c'.name = some (some "__Secure-1PSIDTS") ∧
            (∃ ds, c'.domain = some (some ds) ∧ googleInDomain ds = true) ∧
            c'.value = some q) := by
        intro x y h'
        obtain ⟨h1, h2⟩ := ih x y h'
        constructor
        · rcases h1 with h1 | ⟨c', hc', hrest⟩
          · exact Or.inl h1
          · exact Or.inr ⟨c', List.mem_cons_of_mem _ hc', hrest⟩
        · rcases h2 with h2 | ⟨c', hc', hrest⟩
          · exact Or.inl h2
          · exact Or.inr ⟨c', List.mem_cons_of_mem _ hc', hrest⟩
      rcases hn : c.name with _ | nm
      · simp only [hn] at h
        exact step p0 q0 h
      · rcases hv : c.value with _ | v
        · simp only [hn, hv] at h
          exact step p0 q0 h
        · rcases hd : c.domain with _ | d
          · simp only [hn, hv, hd] at h
            exact step p0 q0 h
          · simp only [hn, hv, hd] at h
            by_cases h1n : nm = some "__Secure-1PSID"
            · rw [if_pos h1n] at h
              cases d with
              | none => simp at h
              | some ds =>
                  dsimp only at h
                  by_cases hg : googleInDomain ds = true
                  · rw [if_pos hg] at h
                    obtain ⟨hp, hq⟩ := step v q0 h
                    refine ⟨?_, hq⟩
                    rcases hp with hp | hex
                    · exact Or.inr ⟨c, List.mem_cons_self _ _,
                        by rw [hn, h1n], ⟨ds, hd, hg⟩, by rw [hv, hp]⟩
                    · exact Or.inr hex
                  · rw [if_neg hg] at h
                    exact step p0 q0 h
            · rw [if_neg h1n] at h
              by_cases h2n : nm = some "__Secure-1PSIDTS"
              · rw [if_pos h2n] at h
                cases d with
                | none => simp at h
                | some ds =>
                    dsimp only at h
                    by_cases hg : googleInDomain ds = true
                    · rw [if_pos hg] at h
                      obtain ⟨hp, hq⟩ := step p0 v h
                      refine ⟨hp, ?_⟩
                      rcases hq with hq | hex
                      · exact Or.inr ⟨c, List.mem_cons_self _ _,
                          by rw [hn, h2n], ⟨ds, hd, hg⟩, by rw [hv, hq]⟩
                      · exact Or.inr hex
                    · rw [if_neg hg] at h
                      exact step p0 q0 h
              · rw [if_neg h2n] at h
                exact step p0 q0 h

/-- C9: `get_cookie_from_browser` for the gemini service never returns a
partial credential: any extraction failure returns `none`, and a returned
pair was produced from a `__Secure-1PSID` and a `__Secure-1PSIDTS` cookie
found on a google domain, with both values non-empty after stripping
whitespace. -/
theorem get_cookie_from_browser_no_partial_credential :
    (∀ service : String,
      get_cookie_from_browser service (.error ()) = none) ∧
    (∀ (fetch : Except Unit (Option (List PyCookie))) (a b : String),
      get_cookie_from_browser "gemini" fetch = some (a, b) →
      pyStrip a ≠ "" ∧ pyStrip b ≠ "" ∧
      ∃ cs, fetch = .ok (some cs) ∧
        (∃ c ∈ cs, c.name = some (some "__Secure-1PSID") ∧
          (∃ ds, c.domain = some (some ds) ∧ googleInDomain ds = true) ∧
          c.value = some (some a)) ∧
        (∃ c ∈ cs, c.name = some (some "__Secure-1PSIDTS") ∧
          (∃ ds, c.domain = some (some ds) ∧ googleInDomain ds = true) ∧
          c.value = some (some b))) := by
  constructor
  · intro service
    rfl
  · intro fetch a b h
    cases fetch with
    | error e => simp [get_cookie_from_browser] at h
    | ok oc =>
      cases oc with
      | none => simp [get_cookie_from_browser] at h
      | some cookies =>
          rw [get_cookie_from_browser] at h
          by_cases hemp : cookies.isEmpty
          · rw [if_pos hemp] at h
            exact absurd h (by simp)
          · rw [if_neg hemp, if_pos rfl] at h
            cases hscan : gemini_cookie_scan cookies (none, none) with
            | error u =>
                rw [hscan] at h
                exact absurd h (by simp)
            | ok pq =>
                obtain ⟨psid, psidts⟩ := pq
                rw [hscan] at h
                cases psid with
                | none => exact absurd h (by simp)
                | some a' =>
                    cases psidts with
                    | none => exact absurd h (by simp)
                    | some b' =>
                        dsimp only at h
                        by_cases hc1 : a' ≠ "" ∧ b' ≠ ""
                        · rw [if_pos hc1] at h
                          by_cases hc2 : (pyStrip a').length = 0
                              ∨ (pyStrip b').length = 0
                          · rw [if_pos hc2] at h
                            exact absurd h (by simp)
                          · rw [if_neg hc2] at h
                            have hab : a' = a ∧ b' = b := by
                              simpa using h
                            obtain ⟨ha, hb⟩ := hab
                            subst ha
                            subst hb
                            push_neg at hc2
                            obtain ⟨hs1, hs2⟩ := hc2
                            obtain ⟨h1, h2⟩ := gemini_cookie_scan_origin
                              cookies (some a') (some b') none none hscan
                            refine ⟨?_, ?_, cookies, rfl, ?_, ?_⟩
                            · intro he
                              exact hs1 (by rw [he]; rfl)
                            · intro he
                              exact hs2 (by rw [he]; rfl)
                            · rcases h1 with h1 | hex
                              · exact absurd h1 (by simp)
                              · exact hex
                            · rcases h2 with h2 | hex
                              · exact absurd h2 (by simp)
                              · exact hex
                        · rw [if_neg hc1] at h
                          exact absurd h (by simp)

/-- C9 witness: an extraction error yields `none`, and the conclusion of
the theorem holds at a concrete fetch result containing both Gemini
cookies on a google domain. -/
theorem get_cookie_from_browser_no_partial_credential_witness :
    get_cookie_from_browser "gemini" (.error ()) = none ∧
    pyStrip "sid" ≠ "" := by
  constructor
  · exact get_cookie_from_browser_no_partial_credential.1 "gemini"
  · exact (get_cookie_from_browser_no_partial_credential.2
      (.ok (some
        [⟨some (some "__Secure-1PSID"), some (some "sid"),
          some (some ".google.com")⟩,
         ⟨some (some "__Secure-1PSIDTS"), some (some "ts"),
          some (some ".google.com")⟩]))
      "sid" "ts" (by decide)).1

/-! ## Prompt flattening
(`src/app/endpoints/chat.py`, `build_context_prompt`)

A message is a `role` (`msg.get("role", "user")`, `none` = missing) and
a `content` that is either a plain string or a list of typed parts.
`base64.b64decode` is passed in as a function returning `none` when it
raises.  A written temporary file is represented by what determines it:
the extension used for its suffix and the decoded bytes written into it
(the `mkstemp` path itself is nondeterministic). -/

/-- One element of a list-valued `content`: a text part (missing `text`
key modelled as `""`), an image part carrying `image_url.url` (missing
key modelled as `""`), or a part of any other type. -/
inductive OpenAIContentPart where
  | textPart (s : String)
  | imagePart (url : String)
  | otherPart
deriving Repr, DecidableEq

/-- The `content` value of a chat message. -/
inductive MessageContent where
  | str (s : String)
  | parts (ps : List OpenAIContentPart)
deriving Repr, DecidableEq

/-- One chat message as read by `build_context_prompt`. -/
structure OpenAIMessage where
  role : Option String
  content : MessageContent
deriving Repr, DecidableEq

/-- Python `s.split(sep, 1)` for a one-character separator, as used by
`image_url.split(",", 1)`: `none` when the separator is absent (the
two-name unpacking then raises `ValueError`). -/
def splitOnceOn (sep : Char) : List Char → Option (List Char × List Char)
  | [] => none
  | c :: cs =>
    if c = sep then some ([], cs)
    else
      match splitOnceOn sep cs with
      | some (a, b) => some (c :: a, b)
      | none => none

/-- `header.split("/")[1].split(";")[0]` guarded by
`"/" in header and ";" in header`, default `"png"`. -/
def extract_ext (header : List Char) : String :=
  if header.contains '/' && header.contains ';' then
    ((pySplitOnChar ';' ((pySplitOnChar '/' header).getD 1 [])).getD 0
      []).asString
  else "png"

/-- Python `str.join`. -/
def pyJoin (sep : String) : List String → String
  | [] => ""
  | [s] => s
  | s :: ss => s ++ sep ++ pyJoin sep ss

/-- The image-handling block for one `image_url` part: accept only
`data:image...` URIs, split off the base64 payload at the first comma
(no comma → `ValueError`, caught: no file), extract the extension from
the header, and decode; a decode failure is caught and produces no
file.  The produced temporary file is represented as (extension,
bytes). -/
def decode_image_part (b64decode : String → Option (List Nat))
    (url : String) : Option (String × List Nat) :=
  if url.startsWith "data:image" then
    match splitOnceOn ',' url.data with
    | none => none
    | some (header, encoded) =>
        match b64decode encoded.asString with
        | none => none
        | some bytes => some (extract_ext header, bytes)
  else none

/-- The file-accumulator update for one `image_url` part: append the
decoded file when decoding succeeded, keep the accumulator otherwise. -/
def append_image_file (b64decode : String → Option (List Nat))
    (url : String) (files : List (String × List Nat)) :
    List (String × List Nat) :=
  files ++ (decode_image_part b64decode url).toList

/-- The `for part in content` loop, with the `text_parts` and
`file_paths` accumulators of the source. -/
def process_parts (b64decode : String → Option (List Nat)) :
    List OpenAIContentPart → List String → List (String × List Nat) →
    List String × List (String × List Nat)
  | [], text_parts, files => (text_parts, files)
  | p :: ps, text_parts, files =>
    match p with
    | .textPart t => process_parts b64decode ps (text_parts ++ [t]) files
    | .imagePart url =>
        process_parts b64decode ps text_parts
          (append_image_file b64decode url files)
    | .otherPart => process_parts b64decode ps text_parts files

/-- The `for msg in messages` loop, with the `prompt_parts` and
`file_paths` accumulators. -/
def build_context_prompt_loop (b64decode : String → Option (List Nat)) :
    List OpenAIMessage → List String → List (String × List Nat) →
    List String × List (String × List Nat)
  | [], prompt_parts, files => (prompt_parts, files)
  | msg :: ms, prompt_parts, files =>
    match msg.content with
    | .str s =>
        build_context_prompt_loop b64decode ms
          (prompt_parts ++ [pyCapitalize (msg.role.getD "user") ++ ": " ++ s])
          files
    | .parts ps =>
        build_context_prompt_loop b64decode ms
          (prompt_parts ++ [pyCapitalize (msg.role.getD "user") ++ ": "
            ++ pyJoin " " (process_parts b64decode ps [] files).1])
          (process_parts b64decode ps [] files).2

/-- Embedding of `build_context_prompt`: the flattened prompt
(`"\n\n".join(prompt_parts)`) and the extracted image files. -/
def build_context_prompt (b64decode : String → Option (List Nat))
    (messages : List OpenAIMessage) :
    String × List (String × List Nat) :=
  (pyJoin "\n\n" (build_context_prompt_loop b64decode messages [] []).1,
   (build_context_prompt_loop b64decode messages [] []).2)

/-- Refinement target, following the claim's words: only text parts
contribute to a list-valued message, joined by single spaces. -/
def spec_text_of_parts (ps : List OpenAIContentPart) : String :=
  pyJoin " " (ps.filterMap fun p =>
    match p with
    | .textPart t => some t
    | _ => none)

/-- Refinement target: one message rendered as `Role: content` with the
role capitalized and defaulting to `user`. -/
def spec_render_message (m : OpenAIMessage) : String :=
  pyCapitalize (m.role.getD "user") ++ ": " ++
    (match m.content with
     | .str s => s
     | .parts ps => spec_text_of_parts ps)

/-- Refinement target: the messages rendered in order, joined by a blank
line. -/
def spec_prompt (messages : List OpenAIMessage) : String :=
  pyJoin "\n\n" (messages.map spec_render_message)

/-- Refinement target: the decoded image attachments of all messages, in
order. -/
def spec_files (b64decode : String → Option (List Nat))
    (messages : List OpenAIMessage) : List (String × List Nat) :=
  (messages.map (fun m =>
    match m.content with
    | .str _ => []
    | .parts ps => ps.filterMap (fun p =>
        match p with
        | .imagePart url => decode_image_part b64decode url
        | _ => none))).flatten

lemma append_image_file_none (b64decode : String → Option (List Nat))
    (url : String) (files : List (String × List Nat))
    (h : decode_image_part b64decode url = none) :
    append_image_file b64decode url files = files := by
  rw [append_image_file, h]
  simp

lemma append_image_file_some (b64decode : String → Option (List Nat))
    (url : String) (files : List (String × List Nat))
    (f : String × List Nat)
    (h : decode_image_part b64decode url = some f) :
    append_image_file b64decode url files = files ++ [f] := by
  rw [append_image_file, h]
  rfl

lemma process_parts_spec (b64decode : String → Option (List Nat))
    (ps : List OpenAIContentPart) :
    ∀ (tp : List String) (fs : List (String × List Nat)),
    process_parts b64decode ps tp fs
      = (tp ++ ps.filterMap (fun p =>
            match p with
            | .textPart t => some t
            | _ => none),
         fs ++ ps.filterMap (fun p =>
            match p with
            | .imagePart url => decode_image_part b64decode url
            | _ => none)) := by
  induction ps with
  | nil => intro tp fs; simp [process_parts]
  | cons p ps ih =>
      intro tp fs
      cases p with
      | textPart t =>
          simp only [process_parts, List.filterMap_cons]
          rw [ih]
          simp [List.append_assoc]
      | imagePart url =>
          simp only [process_parts, List.filterMap_cons]
          rw [ih]
          cases hdec : decode_image_part b64decode url with
          | none =>
              rw [append_image_file_none b64decode url fs hdec]
          | some f =>
              rw [append_image_file_some b64decode url fs f hdec]
              simp [List.append_assoc]
      | otherPart =>
          simp only [process_parts, List.filterMap_cons]
          rw [ih]

lemma build_context_prompt_loop_spec
    (b64decode : String → Option (List Nat)) (ms : List OpenAIMessage) :
    ∀ (pp : List String) (fs : List (String × List Nat)),
    build_context_prompt_loop b64decode ms pp fs
      = (pp ++ ms.map spec_render_message,
         fs ++ spec_files b64decode ms) := by
  induction ms with
  | nil => intro pp fs; simp [build_context_prompt_loop, spec_files]
  | cons m ms ih =>
      intro pp fs
      obtain ⟨r, mc⟩ := m
      cases mc with
      | str s =>
          simp only [build_context_prompt_loop]
          rw [ih]
          simp [spec_files, spec_render_message, List.append_assoc]
      | parts ps =>
          simp only [build_context_prompt_loop]
          rw [process_parts_spec, ih]
          simp [spec_files, spec_render_message, spec_text_of_parts,
            List.append_assoc]

/-- C10: the flattened prompt equals the messages rendered in order as
`Role: content` lines (role capitalized, defaulting to `user`, list
contents reduced to their text parts joined by single spaces) joined by
blank lines, and the returned files are exactly the decoded
`data:image` attachments of the image parts, in order. -/
theorem build_context_prompt_spec
    (b64decode : String → Option (List Nat))
    (messages : List OpenAIMessage) :
    build_context_prompt b64decode messages
      = (spec_prompt messages, spec_files b64decode messages) := by
  rw [build_context_prompt, build_context_prompt_loop_spec]
  simp [spec_prompt]

end WebAItoAPI
